import Mathlib

/-!
Shallow embedding of the SecretStorage client protocol core
(secretstorage/util.py, secretstorage/__init__.py, secretstorage/defines.py)
and proofs about its error translation, secret formatting, session
negotiation and prompt coordination.

Python byte strings are modelled as `List Nat` (each element a byte value),
DBus message bodies as the inductive `PyData`, exceptions as the inductive
`PyErr`, and fallible Python functions as `Except PyErr`-valued Lean
functions.  External collaborators (the jeepney transport, the AES block
cipher, the random IV source, the key-derivation function) enter as explicit
parameters so every definition stays executable.
-/

/-- A Python value as it appears in DBus message bodies and error payloads:
strings, byte strings, booleans, tuples, and lists of object paths. -/
inductive PyData where
  | str (s : String)
  | bytes (bs : List Nat)
  | bool (b : Bool)
  | tup (xs : List PyData)
  | paths (ps : List String)

/-- Whether a `PyData` value is a Python tuple (`isinstance(data, tuple)`). -/
def PyData.isTuple : PyData → Bool
  | .tup _ => true
  | _ => false

/-- Python truthiness (`bool(x)`) restricted to the values we model. -/
def pyTruthy : PyData → Bool
  | .str s => s ≠ ""
  | .bytes bs => !bs.isEmpty
  | .bool b => b
  | .tup xs => !xs.isEmpty
  | .paths ps => !ps.isEmpty

/-- The exceptions the modelled code can raise.  `itemNotFound` and
`serviceUnavailable` are the SecretStorage domain exceptions
(`ItemNotFoundException`, `SecretServiceNotAvailableException`);
`dbusError` is an untranslated `jeepney.wrappers.DBusErrorResponse`
re-raised unchanged; the rest are Python runtime errors. -/
inductive PyErr where
  | itemNotFound (msg : String)
  | serviceUnavailable (data : PyData)
  | dbusError (name : String) (data : PyData)
  | assertionError
  | indexError
  | typeError
  | valueError

/-- A failed DBus reply as jeepney raises it: the transport error name and
the parsed error payload. -/
structure DBusErrorResponse where
  name : String
  data : PyData

/- Bus addressing constants.  `BUS_NAME`, `SERVICE_IFACE` and `PROMPT_IFACE`
are from secretstorage/util.py (the interface names concatenate the
`org.freedesktop.Secret.` namespace constant of secretstorage/defines.py
with the member name). -/

def BUS_NAME : String := "org.freedesktop.secrets"

def SS_PATH : String := "/org/freedesktop/secrets"

def SERVICE_IFACE : String := "org.freedesktop.Secret.Service"

def PROMPT_IFACE : String := "org.freedesktop.Secret.Prompt"

/-- Modelled from the spec: the transport error-name constants imported by
util.py from secretstorage.defines (that part of defines.py is not under
src/).  The spec describes them as the names indicating "unknown method",
"no such object", "service unknown", "exec failed", "no reply received"
and "not supported"; the claims depend only on the six names being
pairwise distinct. -/
def DBUS_UNKNOWN_METHOD : String := "org.freedesktop.DBus.Error.UnknownMethod"

/-- Modelled from the spec: the "no such object" transport error name. -/
def DBUS_NO_SUCH_OBJECT : String := "org.freedesktop.Secret.Error.NoSuchObject"

/-- Modelled from the spec: the "service unknown" transport error name. -/
def DBUS_SERVICE_UNKNOWN : String := "org.freedesktop.DBus.Error.ServiceUnknown"

/-- Modelled from the spec: the "exec failed" transport error name. -/
def DBUS_EXEC_FAILED : String := "org.freedesktop.DBus.Error.Spawn.ExecFailed"

/-- Modelled from the spec: the "no reply received" transport error name. -/
def DBUS_NO_REPLY : String := "org.freedesktop.DBus.Error.NoReply"

/-- Modelled from the spec: the "not supported" transport error name used to
detect the algorithm-unsupported rejection of OpenSession. -/
def DBUS_NOT_SUPPORTED : String := "org.freedesktop.DBus.Error.NotSupported"

/-- Modelled from the spec: the Diffie-Hellman algorithm identifier string
advertised in OpenSession (from the part of defines.py not under src/). -/
def ALGORITHM_DH : String := "dh-ietf1024-sha256-aes128-cbc-pkcs7"

/-- Modelled from the spec: the plain (no encryption) algorithm identifier. -/
def ALGORITHM_PLAIN : String := "plain"

/-- The error translation performed by
`DBusAddressWrapper.send_and_get_reply` (util.py lines 45-57) on a caught
`DBusErrorResponse`: "unknown method" / "no such object" names raise
`ItemNotFoundException`; "service unknown" / "exec failed" / "no reply"
names raise `SecretServiceNotAvailableException` whose message is
`resp.data[0]` when `resp.data` is a tuple (an empty tuple makes the
subscript raise `IndexError`) and `resp.data` itself otherwise; every
other error name is re-raised unchanged. -/
def translateError (name : String) (data : PyData) : PyErr :=
  if name = DBUS_UNKNOWN_METHOD ∨ name = DBUS_NO_SUCH_OBJECT then
    .itemNotFound "Item does not exist!"
  else if name = DBUS_SERVICE_UNKNOWN ∨ name = DBUS_EXEC_FAILED ∨
      name = DBUS_NO_REPLY then
    match data with
    | .tup [] => .indexError
    | .tup (x :: _) => .serviceUnavailable x
    | d => .serviceUnavailable d
  else .dbusError name data

/-- `DBusAddressWrapper.send_and_get_reply`: forward the underlying
connection's reply, translating a raised `DBusErrorResponse` through the
table above.  The raw transport outcome is passed in as an `Except`. -/
def send_and_get_reply {α : Type} (raw : Except DBusErrorResponse α) :
    Except PyErr α :=
  match raw with
  | .ok v => .ok v
  | .error resp => .error (translateError resp.name resp.data)

/-- Claim C2: for every RPC through `DBusAddressWrapper.send_and_get_reply`,
a failed reply named "unknown method" or "no such object" raises
`ItemNotFoundException`; one named "service unknown", "exec failed" or
"no reply received" raises `SecretServiceNotAvailableException` carrying
the first element of the error payload when the payload is a tuple and the
payload itself otherwise; any other transport error is re-raised
unchanged. -/
theorem send_and_get_reply_translation {α : Type} (name : String)
    (data : PyData) :
    ((name = DBUS_UNKNOWN_METHOD ∨ name = DBUS_NO_SUCH_OBJECT) →
      send_and_get_reply (α := α) (.error ⟨name, data⟩) =
        .error (.itemNotFound "Item does not exist!")) ∧
    ((name = DBUS_SERVICE_UNKNOWN ∨ name = DBUS_EXEC_FAILED ∨
        name = DBUS_NO_REPLY) →
      (∀ x rest, data = .tup (x :: rest) →
        send_and_get_reply (α := α) (.error ⟨name, data⟩) =
          .error (.serviceUnavailable x)) ∧
      (data.isTuple = false →
        send_and_get_reply (α := α) (.error ⟨name, data⟩) =
          .error (.serviceUnavailable data))) ∧
    (name ≠ DBUS_UNKNOWN_METHOD → name ≠ DBUS_NO_SUCH_OBJECT →
      name ≠ DBUS_SERVICE_UNKNOWN → name ≠ DBUS_EXEC_FAILED →
      name ≠ DBUS_NO_REPLY →
      send_and_get_reply (α := α) (.error ⟨name, data⟩) =
        .error (.dbusError name data)) := by
  refine ⟨?_, ?_, ?_⟩
  · intro h
    simp [send_and_get_reply, translateError, h]
  · intro h
    have hne1 : name ≠ DBUS_UNKNOWN_METHOD := by
      rcases h with h | h | h <;> subst h <;> decide
    have hne2 : name ≠ DBUS_NO_SUCH_OBJECT := by
      rcases h with h | h | h <;> subst h <;> decide
    constructor
    · intro x rest hdata
      subst hdata
      simp [send_and_get_reply, translateError, hne1, hne2, h]
    · intro htup
      cases data with
      | tup xs => simp [PyData.isTuple] at htup
      | str s => simp [send_and_get_reply, translateError, hne1, hne2, h]
      | bytes bs => simp [send_and_get_reply, translateError, hne1, hne2, h]
      | bool b => simp [send_and_get_reply, translateError, hne1, hne2, h]
      | paths ps => simp [send_and_get_reply, translateError, hne1, hne2, h]
  · intro h1 h2 h3 h4 h5
    simp [send_and_get_reply, translateError, h1, h2, h3, h4, h5]

/-- Witness for C2: the three branches evaluated at concrete error names
("unknown method", "service unknown" with a tuple payload, and an
untranslated name). -/
theorem send_and_get_reply_translation_witness :
    send_and_get_reply (α := PyData)
        (.error ⟨DBUS_UNKNOWN_METHOD, .str "x"⟩) =
      .error (.itemNotFound "Item does not exist!") ∧
    send_and_get_reply (α := PyData)
        (.error ⟨DBUS_SERVICE_UNKNOWN, .tup [.str "gone", .str "extra"]⟩) =
      .error (.serviceUnavailable (.str "gone")) ∧
    send_and_get_reply (α := PyData)
        (.error ⟨"org.example.Other", .str "d"⟩) =
      .error (.dbusError "org.example.Other" (.str "d")) := by
  refine ⟨?_, ?_, ?_⟩
  · exact (send_and_get_reply_translation DBUS_UNKNOWN_METHOD
      (.str "x")).1 (Or.inl rfl)
  · exact ((send_and_get_reply_translation DBUS_SERVICE_UNKNOWN
      (.tup [.str "gone", .str "extra"])).2.1 (Or.inl rfl)).1
      (.str "gone") [.str "extra"] rfl
  · exact (send_and_get_reply_translation "org.example.Other"
      (.str "d")).2.2 (by decide) (by decide) (by decide) (by decide)
      (by decide)

/-- Modelled from the spec: the fixed well-known MODP prime over which the
local DH keypair is generated (secretstorage/dhcrypto.py is not under
src/; the spec calls it "a fixed well-known prime/generator" matching the
published algorithm identifier).  None of the claims depend on its value. -/
def dh_prime : Nat :=
  0xFFFFFFFFFFFFFFFFC90FDAA22168C234C4C6628B80DC1CD129024E088A67CC74020BBEA63B139B22514A08798E3404DDEF9519B3CD3A431B302B0A6DF25F14374FE1356D6D51C245E485B576625E7EC6F44C42E9A637ED6B0BFF5CB6F406B7EDEE386BFB5A899FA5AE9F24117C4B1FE649286651ECE65381FFFFFFFFFFFFFFFF

/-- Modelled from the spec: the fixed well-known DH generator. -/
def dh_generator : Nat := 2

/-- Modular exponentiation, Python's `pow(base, exp, mod)`. -/
def powMod (b e m : Nat) : Nat := b ^ e % m

/-- Modelled from the spec: `secretstorage.dhcrypto.Session` (not under
src/).  Per the spec's data model: local DH keypair, optional server
public key and derived symmetric key, the `encrypted` flag (initially
true), and the service-assigned session handle (object path), initially
unset. -/
structure Session where
  my_private_key : Nat
  my_public_key : Nat
  server_public_key : Option Nat
  aes_key : Option (List Nat)
  encrypted : Bool
  object_path : Option String

/-- Modelled from the spec: constructing a `Session` generates a local DH
keypair (public key = generator ^ private key mod prime), with
`encrypted` initially true and no server key, symmetric key or object
path yet.  The random private key is an explicit parameter. -/
def Session.init (priv : Nat) : Session :=
  { my_private_key := priv
    my_public_key := powMod dh_generator priv dh_prime
    server_public_key := none
    aes_key := none
    encrypted := true
    object_path := none }

/-- Modelled from the spec: `Session.set_server_public_key` records the
decoded server public key, computes the shared secret by modular
exponentiation, and derives the symmetric key from it.  The
key-derivation function (a fixed SHA-256-based scheme the spec leaves to
the service's definition) is an explicit parameter `kdf`. -/
def set_server_public_key (kdf : Nat → List Nat) (key : Nat)
    (s : Session) : Session :=
  { s with
    server_public_key := some key
    aes_key := some (kdf (powMod key s.my_private_key dh_prime)) }

/-- Modelled from the spec: `secretstorage.dhcrypto.int_to_bytes`, the
big-endian unsigned encoding of a nonnegative integer (most significant
base-256 digit first, no leading zero bytes, the empty string for 0). -/
def int_to_bytes : Nat → List Nat
  | 0 => []
  | n + 1 => int_to_bytes ((n + 1) / 256) ++ [(n + 1) % 256]

/-- `cryptography.utils.int_from_bytes(value, "big")`: big-endian unsigned
decoding of a byte sequence. -/
def int_from_bytes (bs : List Nat) : Nat :=
  bs.foldl (fun acc b => acc * 256 + b) 0

/-- A Python `str` or `bytes` argument, as accepted by `format_secret`. -/
inductive PySecret where
  | bytes (bs : List Nat)
  | str (s : String)

/-- `str.encode("utf-8")` as a byte list. -/
def utf8Encode (s : String) : List Nat :=
  s.toUTF8.toList.map (fun b => b.toNat)

/-- Byte-wise xor of two blocks (CBC chaining step). -/
def xorBytes (a b : List Nat) : List Nat :=
  List.zipWith Nat.xor a b

/-- Split a byte list into consecutive 16-byte blocks (the AES block size);
the last block is shorter when the length is not a multiple of 16. -/
def chunk16 (l : List Nat) : List (List Nat) :=
  if h : l = [] then []
  else l.take 16 :: chunk16 (l.drop 16)
termination_by l.length
decreasing_by
  simp only [List.length_drop]
  have : 0 < l.length := List.length_pos.mpr h
  omega

/-- CBC encryption of a block sequence under block cipher `E`, starting
from chaining value `prev`: each plaintext block is xor-ed with the
previous ciphertext block (initially the IV) and passed through `E`. -/
def cbcBlocks (E : List Nat → List Nat) (prev : List Nat) :
    List (List Nat) → List (List Nat)
  | [] => []
  | b :: bs =>
    let c := E (xorBytes prev b)
    c :: cbcBlocks E c bs

/-- AES-CBC encryption of a byte list: chunk into 16-byte blocks, chain
with `cbcBlocks`, concatenate the ciphertext blocks.  The AES block
permutation under the session key is the parameter `E`. -/
def cbcEncrypt (E : List Nat → List Nat) (iv : List Nat)
    (msg : List Nat) : List Nat :=
  (cbcBlocks E iv (chunk16 msg)).flatten

/-- `secretstorage.util.format_secret` (util.py lines 96-117).  A `str`
secret is first encoded to UTF-8 bytes; then `session.object_path` is
asserted to be set.  Unencrypted sessions return the plaintext with an
empty IV.  Encrypted sessions apply PKCS-7 style padding
(`0x10 - (len & 0xf)` bytes, each equal to the pad length), then AES-CBC
encrypt under the session key with a fresh 16-byte IV.  The cipher `E`
(keyed AES block permutation) and the random IV are explicit parameters
standing for the `cryptography` backend and `os.urandom(0x10)`. -/
def format_secret (E : List Nat → List Nat → List Nat) (aes_iv : List Nat)
    (session : Session) (secret : PySecret) (content_type : String) :
    Except PyErr (String × List Nat × List Nat × String) :=
  let secretB := match secret with
    | .bytes bs => bs
    | .str s => utf8Encode s
  match session.object_path with
  | none => .error .assertionError
  | some path =>
    if !session.encrypted then
      .ok (path, [], secretB, content_type)
    else
      let padding := 16 - secretB.length % 16
      let padded := secretB ++ List.replicate padding padding
      match session.aes_key with
      | none => .error .typeError
      | some key =>
        .ok (path, aes_iv, cbcEncrypt (E key) aes_iv padded, content_type)

/-- On a nonempty list, `chunk16` splits off the first 16 bytes. -/
theorem chunk16_cons (l : List Nat) (h : l ≠ []) :
    chunk16 l = l.take 16 :: chunk16 (l.drop 16) := by
  rw [chunk16]
  simp [h]

/-- A list whose length is `16 * n` splits into `n` chunks of length 16. -/
theorem chunk16_spec (n : Nat) :
    ∀ l : List Nat, l.length = 16 * n →
      (∀ c ∈ chunk16 l, c.length = 16) ∧ (chunk16 l).length = n := by
  induction n with
  | zero =>
    intro l hl
    have : l = [] := List.length_eq_zero.mp (by omega)
    subst this
    rw [chunk16]
    simp
  | succ m ih =>
    intro l hl
    have hne : l ≠ [] := by
      intro h
      subst h
      simp at hl
    have hdrop : (l.drop 16).length = 16 * m := by
      simp [List.length_drop]
      omega
    obtain ⟨ihall, ihlen⟩ := ih (l.drop 16) hdrop
    rw [chunk16_cons l hne]
    constructor
    · intro c hc
      rcases List.mem_cons.mp hc with h | h
      · subst h
        simp [List.length_take]
        omega
      · exact ihall c h
    · simp [ihlen]

/-- Under a 16-byte-block-preserving cipher, CBC over chunks of length 16
emits `16 * (number of chunks)` ciphertext bytes. -/
theorem cbcBlocks_flatten_length (E : List Nat → List Nat)
    (HE : ∀ b, b.length = 16 → (E b).length = 16) :
    ∀ (cs : List (List Nat)) (prev : List Nat), prev.length = 16 →
      (∀ c ∈ cs, c.length = 16) →
      ((cbcBlocks E prev cs).flatten).length = 16 * cs.length := by
  intro cs
  induction cs with
  | nil => intro prev _ _; simp [cbcBlocks]
  | cons c cs ih =>
    intro prev hprev hall
    have hc : c.length = 16 := hall c (List.mem_cons_self c cs)
    have hxor : (xorBytes prev c).length = 16 := by
      simp [xorBytes, hprev, hc]
    have hEc : (E (xorBytes prev c)).length = 16 := HE _ hxor
    have ihcs := ih (E (xorBytes prev c)) hEc
      (fun x hx => hall x (List.mem_cons_of_mem c hx))
    simp only [cbcBlocks, List.flatten_cons, List.length_append,
      List.length_cons, hEc, ihcs]
    ring

/-- Length of `cbcEncrypt` on an input whose length is a multiple of 16:
the ciphertext has exactly the input's length. -/
theorem cbcEncrypt_length (E : List Nat → List Nat)
    (HE : ∀ b, b.length = 16 → (E b).length = 16) (iv : List Nat)
    (hiv : iv.length = 16) (l : List Nat) (hd : l.length % 16 = 0) :
    (cbcEncrypt E iv l).length = l.length := by
  obtain ⟨n, hn⟩ : ∃ n, l.length = 16 * n := ⟨l.length / 16, by omega⟩
  obtain ⟨hall, hlen⟩ := chunk16_spec n l hn
  unfold cbcEncrypt
  rw [cbcBlocks_flatten_length E HE (chunk16 l) iv hiv hall, hlen, hn]

/-- The padded input has length `len + (16 - len % 16)`, a nonzero multiple
of 16. -/
theorem padded_length (b : List Nat) :
    (b ++ List.replicate (16 - b.length % 16) (16 - b.length % 16)).length
        = b.length + (16 - b.length % 16) ∧
      (b.length + (16 - b.length % 16)) % 16 = 0 ∧
      0 < b.length + (16 - b.length % 16) := by
  refine ⟨by simp, ?_, ?_⟩ <;> omega

/-- Claim C3: under an encrypted session, `format_secret` pads the
plaintext with exactly `16 - (len % 16)` bytes, each equal to that pad
length, before AES-CBC encryption; the emitted ciphertext always has
length `len + (16 - len % 16)` — in particular `len + 16` when `len` is an
exact multiple of 16 — which is a non-zero multiple of 16.  The AES block
permutation `E key` maps 16-byte blocks to 16-byte blocks and the IV is
the 16 random bytes drawn by `os.urandom`. -/
theorem format_secret_padding (E : List Nat → List Nat → List Nat)
    (key : List Nat)
    (HE : ∀ blk, blk.length = 16 → (E key blk).length = 16)
    (aes_iv : List Nat) (hiv : aes_iv.length = 16) (session : Session)
    (path : String) (hpath : session.object_path = some path)
    (henc : session.encrypted = true) (hkey : session.aes_key = some key)
    (p : List Nat) (content_type : String) :
    format_secret E aes_iv session (.bytes p) content_type =
      .ok (path, aes_iv,
        cbcEncrypt (E key) aes_iv
          (p ++ List.replicate (16 - p.length % 16) (16 - p.length % 16)),
        content_type) ∧
    (cbcEncrypt (E key) aes_iv
        (p ++ List.replicate (16 - p.length % 16)
          (16 - p.length % 16))).length = p.length + (16 - p.length % 16) ∧
    (p.length % 16 = 0 →
      (cbcEncrypt (E key) aes_iv
        (p ++ List.replicate (16 - p.length % 16)
          (16 - p.length % 16))).length = p.length + 16) ∧
    (cbcEncrypt (E key) aes_iv
        (p ++ List.replicate (16 - p.length % 16)
          (16 - p.length % 16))).length % 16 = 0 ∧
    0 < (cbcEncrypt (E key) aes_iv
        (p ++ List.replicate (16 - p.length % 16)
          (16 - p.length % 16))).length := by
  obtain ⟨hplen, hpmod, hppos⟩ := padded_length p
  have hclen := cbcEncrypt_length (E key) HE aes_iv hiv
    (p ++ List.replicate (16 - p.length % 16) (16 - p.length % 16))
    (by rw [hplen]; exact hpmod)
  rw [hplen] at hclen
  refine ⟨?_, hclen, ?_, ?_, ?_⟩
  · simp [format_secret, hpath, henc, hkey]
  · intro hmul
    rw [hclen]
    omega
  · omega
  · omega

/-- Witness for C3: the identity block cipher (which preserves 16-byte
blocks), a zero IV and a 3-byte plaintext; the theorem is applied at these
concrete values. -/
theorem format_secret_padding_witness :
    format_secret (fun _ blk => blk) (List.replicate 16 0)
        { my_private_key := 1, my_public_key := 2,
          server_public_key := none, aes_key := some [7],
          encrypted := true, object_path := some "/s" }
        (.bytes [1, 2, 3]) "text/plain" =
      .ok ("/s", List.replicate 16 0,
        cbcEncrypt (fun blk => blk) (List.replicate 16 0)
          ([1, 2, 3] ++ List.replicate 13 13), "text/plain") ∧
    (cbcEncrypt (fun blk => blk) (List.replicate 16 0)
        ([1, 2, 3] ++ List.replicate 13 13)).length = 16 := by
  have h := format_secret_padding (fun _ blk => blk) [7]
    (fun blk hb => hb) (List.replicate 16 0) (by simp)
    { my_private_key := 1, my_public_key := 2, server_public_key := none,
      aes_key := some [7], encrypted := true, object_path := some "/s" }
    "/s" rfl rfl rfl [1, 2, 3] "text/plain"
  exact ⟨h.1, h.2.1⟩

/-- Claim C6: under an unencrypted session, `format_secret` returns exactly
the 4-tuple (session handle, empty IV, plaintext unchanged, content
type), for plaintexts of arbitrary length. -/
theorem format_secret_unencrypted (E : List Nat → List Nat → List Nat)
    (aes_iv : List Nat) (session : Session) (path : String)
    (hpath : session.object_path = some path)
    (henc : session.encrypted = false) (p : List Nat)
    (content_type : String) :
    format_secret E aes_iv session (.bytes p) content_type =
      .ok (path, [], p, content_type) := by
  simp [format_secret, hpath, henc]

/-- Witness for C6: an unencrypted session and a 5-byte plaintext. -/
theorem format_secret_unencrypted_witness :
    format_secret (fun _ blk => blk) []
        { my_private_key := 1, my_public_key := 2,
          server_public_key := none, aes_key := none,
          encrypted := false, object_path := some "/session/u" }
        (.bytes [104, 117, 110, 116, 50]) "text/plain" =
      .ok ("/session/u", [], [104, 117, 110, 116, 50], "text/plain") :=
  format_secret_unencrypted (fun _ blk => blk) []
    { my_private_key := 1, my_public_key := 2, server_public_key := none,
      aes_key := none, encrypted := false,
      object_path := some "/session/u" }
    "/session/u" rfl rfl [104, 117, 110, 116, 50] "text/plain"

/-- Claim C10: `format_secret` accepts a `str` secret, behaving exactly as
on its UTF-8 encoding; it asserts `session.object_path` is set before
producing any tuple (failing with `AssertionError` when unset), and with
the object path set (and, per the Session invariant, the AES key present
exactly when the session is encrypted) it always returns a tuple. -/
theorem format_secret_str_coercion (E : List Nat → List Nat → List Nat)
    (aes_iv : List Nat) (session : Session) (s : String)
    (content_type : String) :
    format_secret E aes_iv session (.str s) content_type =
      format_secret E aes_iv session (.bytes (utf8Encode s)) content_type ∧
    (session.object_path = none →
      format_secret E aes_iv session (.str s) content_type =
        .error .assertionError) ∧
    (∀ path key, session.object_path = some path →
      (session.encrypted = true → session.aes_key = some key) →
      ∃ t, format_secret E aes_iv session (.str s) content_type = .ok t) := by
  refine ⟨rfl, ?_, ?_⟩
  · intro hnone
    simp [format_secret, hnone]
  · intro path key hpath hinv
    cases henc : session.encrypted with
    | false =>
      exact ⟨(path, [], utf8Encode s, content_type),
        by simp [format_secret, hpath, henc]⟩
    | true =>
      have hkey := hinv henc
      exact ⟨(path, aes_iv,
        cbcEncrypt (E key) aes_iv
          (utf8Encode s ++
            List.replicate (16 - (utf8Encode s).length % 16)
              (16 - (utf8Encode s).length % 16)), content_type),
        by simp [format_secret, hpath, henc, hkey]⟩

/-- Witness for C10: an encrypted session with key set and object path
set, at the concrete string secret "pw". -/
theorem format_secret_str_coercion_witness :
    format_secret (fun _ blk => blk) (List.replicate 16 0)
        { my_private_key := 1, my_public_key := 2,
          server_public_key := none, aes_key := some [7],
          encrypted := true, object_path := some "/s" }
        (.str "pw") "text/plain" =
      format_secret (fun _ blk => blk) (List.replicate 16 0)
        { my_private_key := 1, my_public_key := 2,
          server_public_key := none, aes_key := some [7],
          encrypted := true, object_path := some "/s" }
        (.bytes (utf8Encode "pw")) "text/plain" ∧
    ∃ t, format_secret (fun _ blk => blk) (List.replicate 16 0)
        { my_private_key := 1, my_public_key := 2,
          server_public_key := none, aes_key := some [7],
          encrypted := true, object_path := some "/s" }
        (.str "pw") "text/plain" = .ok t := by
  have h := format_secret_str_coercion (fun _ blk => blk)
    (List.replicate 16 0)
    { my_private_key := 1, my_public_key := 2, server_public_key := none,
      aes_key := some [7], encrypted := true, object_path := some "/s" }
    "pw" "text/plain"
  exact ⟨h.1, h.2.2 "/s" [7] rfl (fun _ => rfl)⟩

/-- A DBus variant as jeepney passes it: `(signature, value)`. -/
def Variant : Type := String × PyData

/-- One OpenSession RPC as issued by the negotiator: the advertised
algorithm identifier and the negotiation payload variant. -/
structure OpenSessionCall where
  algorithm : String
  payload : Variant

/-- The DH negotiation payload variant sent on the first OpenSession call:
`('ay', int_to_bytes(session.my_public_key))`. -/
def dhPayload (priv : Nat) : Variant :=
  ("ay", .bytes (int_to_bytes (Session.init priv).my_public_key))

/-- The plain-algorithm payload variant used for the fallback call:
`('s', '')`. -/
def plainPayload : Variant := ("s", .str "")

/-- `secretstorage.util.open_session` (util.py lines 73-94).  The service
is the parameter `svc`, a function from the advertised algorithm and
payload to the raw transport outcome of the OpenSession RPC (which
`service.call` routes through `send_and_get_reply`); `kdf` is the
key-derivation function and `priv` the randomly generated private key.
Returns the outcome together with the list of OpenSession RPCs issued,
in order.  The DH attempt is made first; a `DBusErrorResponse` named
`DBUS_NOT_SUPPORTED` (which `send_and_get_reply` re-raises untranslated)
triggers the single plain-algorithm retry with `encrypted = False`; any
other exception propagates.  On the DH success path the reply variant's
signature is asserted to be `'ay'`, the returned bytes are decoded
big-endian and recorded via `set_server_public_key`.  Either way the
service-returned session handle is stored in `session.object_path`. -/
def open_session
    (svc : String → Variant → Except DBusErrorResponse (Variant × String))
    (kdf : Nat → List Nat) (priv : Nat) :
    Except PyErr Session × List OpenSessionCall :=
  let session := Session.init priv
  let call1 : OpenSessionCall := ⟨ALGORITHM_DH, dhPayload priv⟩
  match send_and_get_reply (svc ALGORITHM_DH (dhPayload priv)) with
  | .error e =>
    match e with
    | .dbusError name d =>
      if name = DBUS_NOT_SUPPORTED then
        let call2 : OpenSessionCall := ⟨ALGORITHM_PLAIN, plainPayload⟩
        match send_and_get_reply (svc ALGORITHM_PLAIN plainPayload) with
        | .error e2 => (.error e2, [call1, call2])
        | .ok (_, result) =>
          (.ok { session with
                  encrypted := false
                  object_path := some result }, [call1, call2])
      else (.error (.dbusError name d), [call1])
    | other => (.error other, [call1])
  | .ok (output, result) =>
    let (signature, value) := output
    if signature = "ay" then
      match value with
      | .bytes bs =>
        let key := int_from_bytes bs
        let session := set_server_public_key kdf key session
        (.ok { session with object_path := some result }, [call1])
      | _ => (.error .typeError, [call1])
    else (.error .assertionError, [call1])

/-- `DBUS_NOT_SUPPORTED` is not in either translation list, so
`send_and_get_reply` re-raises it as an untranslated `DBusErrorResponse`. -/
theorem translateError_not_supported (d : PyData) :
    translateError DBUS_NOT_SUPPORTED d =
      .dbusError DBUS_NOT_SUPPORTED d := by
  unfold translateError
  rw [if_neg (by decide), if_neg (by decide)]

/-- The only way `translateError` yields an untranslated `dbusError` is the
final catch-all, which preserves the name and payload unchanged. -/
theorem translateError_dbusError_inv (name : String) (d : PyData)
    (n2 : String) (d2 : PyData)
    (h : translateError name d = .dbusError n2 d2) : n2 = name ∧ d2 = d := by
  unfold translateError at h
  split at h
  · exact absurd h (by simp)
  · split at h
    · cases d with
      | tup xs =>
        cases xs with
        | nil => exact absurd h (by simp)
        | cons x r => exact absurd h (by simp)
      | str s => exact absurd h (by simp)
      | bytes bs => exact absurd h (by simp)
      | bool b => exact absurd h (by simp)
      | paths ps => exact absurd h (by simp)
    · injection h with h1 h2
      exact ⟨h1.symm, h2.symm⟩

/-- Claim C4: when the service rejects the DH OpenSession call with the
"not supported" transport error, `open_session` retries exactly once with
the plain algorithm and the empty-string payload and, the retry
succeeding, returns without raising a `Session` with `encrypted = false`,
no symmetric key and no server public key (key derivation skipped), its
handle set to the retry's result; a first-call error with any other name
propagates (after `send_and_get_reply`'s uniform translation). -/
theorem open_session_fallback
    (svc : String → Variant → Except DBusErrorResponse (Variant × String))
    (kdf : Nat → List Nat) (priv : Nat) :
    (∀ d out path,
      svc ALGORITHM_DH (dhPayload priv) = .error ⟨DBUS_NOT_SUPPORTED, d⟩ →
      svc ALGORITHM_PLAIN plainPayload = .ok (out, path) →
      open_session svc kdf priv =
        (.ok { Session.init priv with
                encrypted := false
                object_path := some path },
         [⟨ALGORITHM_DH, dhPayload priv⟩,
          ⟨ALGORITHM_PLAIN, plainPayload⟩]) ∧
      ({ Session.init priv with
          encrypted := false
          object_path := some path } : Session).encrypted = false ∧
      ({ Session.init priv with
          encrypted := false
          object_path := some path } : Session).aes_key = none ∧
      ({ Session.init priv with
          encrypted := false
          object_path := some path } : Session).server_public_key = none) ∧
    (∀ name d, name ≠ DBUS_NOT_SUPPORTED →
      svc ALGORITHM_DH (dhPayload priv) = .error ⟨name, d⟩ →
      open_session svc kdf priv =
        (.error (translateError name d), [⟨ALGORITHM_DH, dhPayload priv⟩])) := by
  constructor
  · intro d out path h1 h2
    refine ⟨?_, rfl, rfl, rfl⟩
    unfold open_session
    rw [h1, h2]
    simp [send_and_get_reply, translateError_not_supported]
  · intro name d hne hsvc
    unfold open_session
    rw [hsvc]
    simp only [send_and_get_reply]
    cases he : translateError name d with
    | dbusError n2 d2 =>
      obtain ⟨hn, hd⟩ := translateError_dbusError_inv name d n2 d2 he
      subst hn
      subst hd
      simp [hne]
    | itemNotFound m => rfl
    | serviceUnavailable pd => rfl
    | assertionError => rfl
    | indexError => rfl
    | typeError => rfl
    | valueError => rfl

/-- Witness for C4: a service that rejects the DH algorithm as not
supported and accepts the plain fallback, at private key 1. -/
theorem open_session_fallback_witness :
    open_session
        (fun alg _ =>
          if alg = ALGORITHM_PLAIN then .ok (plainPayload, "/ssn/4")
          else .error ⟨DBUS_NOT_SUPPORTED, .str "na"⟩)
        (fun n => [n]) 1 =
      (.ok { Session.init 1 with
              encrypted := false
              object_path := some "/ssn/4" },
       [⟨ALGORITHM_DH, dhPayload 1⟩, ⟨ALGORITHM_PLAIN, plainPayload⟩]) := by
  have h := (open_session_fallback
    (fun alg _ =>
      if alg = ALGORITHM_PLAIN then .ok (plainPayload, "/ssn/4")
      else .error ⟨DBUS_NOT_SUPPORTED, .str "na"⟩)
    (fun n => [n]) 1).1 (.str "na") plainPayload "/ssn/4"
    (by rw [if_neg (by decide)]) (by rw [if_pos rfl])
  exact h.1

/-- `int_to_bytes` is the exact big-endian unsigned encoding: decoding its
output with the big-endian decoder `int_from_bytes` recovers the
integer. -/
theorem int_from_bytes_int_to_bytes (n : Nat) :
    int_from_bytes (int_to_bytes n) = n := by
  induction n using Nat.strong_induction_on with
  | _ n ih =>
    match n with
    | 0 => simp [int_to_bytes, int_from_bytes]
    | m + 1 =>
      have hstep : int_to_bytes (m + 1) =
          int_to_bytes ((m + 1) / 256) ++ [(m + 1) % 256] := by
        rw [int_to_bytes]
      rw [hstep]
      unfold int_from_bytes
      rw [List.foldl_append]
      simp only [List.foldl_cons, List.foldl_nil]
      have ihq := ih ((m + 1) / 256) (by omega)
      unfold int_from_bytes at ihq
      rw [ihq]
      omega

/-- Claim C7: on the DH path, `open_session` sends exactly one OpenSession
RPC carrying the local public key encoded big-endian unsigned (the
encoding round-trips through the big-endian decoder); on a reply whose
variant carries a byte array (signature checked to be `'ay'`) it decodes
the bytes big-endian into the server public key, and records the
service-returned handle on the session, whose handle was unset before;
a reply variant with any other signature fails the assertion. -/
theorem open_session_dh_encoding
    (svc : String → Variant → Except DBusErrorResponse (Variant × String))
    (kdf : Nat → List Nat) (priv : Nat) :
    (∀ n, int_from_bytes (int_to_bytes n) = n) ∧
    (∀ bs path,
      svc ALGORITHM_DH (dhPayload priv) = .ok (("ay", .bytes bs), path) →
      open_session svc kdf priv =
        (.ok { set_server_public_key kdf (int_from_bytes bs)
                  (Session.init priv) with
                object_path := some path },
         [⟨ALGORITHM_DH,
           ("ay", PyData.bytes
             (int_to_bytes (Session.init priv).my_public_key))⟩]) ∧
      ({ set_server_public_key kdf (int_from_bytes bs)
            (Session.init priv) with
          object_path := some path } : Session).server_public_key =
        some (int_from_bytes bs) ∧
      (Session.init priv).object_path = none) ∧
    (∀ sig v path, sig ≠ "ay" →
      svc ALGORITHM_DH (dhPayload priv) = .ok ((sig, v), path) →
      open_session svc kdf priv =
        (.error .assertionError, [⟨ALGORITHM_DH, dhPayload priv⟩])) := by
  refine ⟨int_from_bytes_int_to_bytes, ?_, ?_⟩
  · intro bs path hsvc
    refine ⟨?_, rfl, rfl⟩
    unfold open_session
    rw [hsvc]
    simp [send_and_get_reply, dhPayload]
  · intro sig v path hsig hsvc
    unfold open_session
    rw [hsvc]
    simp [send_and_get_reply, hsig]

/-- Witness for C7: a service returning the byte array `[2]` and handle
"/ssn/7", at private key 1. -/
theorem open_session_dh_encoding_witness :
    int_from_bytes (int_to_bytes 5) = 5 ∧
    open_session (fun _ _ => .ok (("ay", PyData.bytes [2]), "/ssn/7"))
        (fun n => [n]) 1 =
      (.ok { set_server_public_key (fun n => [n]) (int_from_bytes [2])
                (Session.init 1) with
              object_path := some "/ssn/7" },
       [⟨ALGORITHM_DH,
         ("ay", PyData.bytes
           (int_to_bytes (Session.init 1).my_public_key))⟩]) := by
  have h := open_session_dh_encoding
    (fun _ _ => .ok (("ay", PyData.bytes [2]), "/ssn/7")) (fun n => [n]) 1
  exact ⟨h.1 5, (h.2.1 [2] "/ssn/7" rfl).1⟩

/-- An inbound message on the connection, in arrival order: a method
reply, an error reply (a `DBusErrorResponse` for the outstanding call),
or a signal.  A Completed signal's body has the two-field signature
`(dismissed, result)`. -/
inductive InMsg where
  | reply (body : PyData)
  | errorReply (name : String) (data : PyData)
  | signal (path : String) (iface : String) (member : String)
      (body : PyData × PyData)

/-- A signal subscription key as registered with
`connection.router.subscribe_signal(callback, path, interface, member)`:
jeepney dispatches a signal to a callback exactly when all three fields
match. -/
structure SubKey where
  path : String
  iface : String
  member : String
deriving DecidableEq

/-- The closure state of one `exec_prompt` invocation: its `dismissed` and
`result` variables, both initially `None`. -/
structure PromptState where
  dismissed : Option Bool
  result : Option PyData

/-- The subscription key `exec_prompt` registers for its own prompt:
`(prompt_path, PROMPT_IFACE, 'Completed')` (util.py line 134). -/
def execPromptKey (prompt_path : String) : SubKey :=
  ⟨prompt_path, PROMPT_IFACE, "Completed"⟩

/-- Router delivery of one inbound message against one subscription: a
signal whose path, interface and member all equal the subscription key
runs the `exec_prompt` callback, which sets `dismissed` to the truthiness
of the first body field and `result` to the second; any other message
leaves the state unchanged. -/
def dispatchOne (key : SubKey) (st : PromptState) : InMsg → PromptState
  | .signal p i m body =>
    if p = key.path ∧ i = key.iface ∧ m = key.member then
      { dismissed := some (pyTruthy body.1), result := some body.2 }
    else st
  | _ => st

/-- Outcome of a blocking method call (`prompt.call`) while the router
dispatches inbound traffic: the reply arrives after zero or more signals
(each dispatched against the subscription), the call fails with a
translated error, or the inbox runs dry (the caller blocks forever). -/
inductive CallResult where
  | ok (st : PromptState) (rest : List InMsg)
  | failed (e : PyErr) (rest : List InMsg)
  | blocked

/-- jeepney's blocking `send_and_get_reply` loop: receive and route
messages until the reply to the outstanding call arrives.  Signals
received before the reply are dispatched to the subscription. -/
def pumpUntilReply (key : SubKey) :
    PromptState → List InMsg → CallResult
  | _, [] => .blocked
  | st, .reply _ :: rest => .ok st rest
  | _, .errorReply n d :: rest => .failed (translateError n d) rest
  | st, .signal p i m body :: rest =>
    pumpUntilReply key (dispatchOne key st (.signal p i m body)) rest

/-- Outcome of `exec_prompt`: the `(dismissed, result)` pair, a raised
exception, or blocking forever on the inbound socket. -/
inductive ExecOutcome where
  | ok (dismissed : Bool) (result : PyData)
  | err (e : PyErr)
  | blocked

/-- `secretstorage.util.exec_prompt` (util.py lines 120-140) over the
connection's pending inbound-message sequence `inbox`.  It subscribes the
callback for `(prompt_path, PROMPT_IFACE, 'Completed')`, issues the
Prompt call (during which the blocking connection routes every inbound
message), then — `if result is None` — calls `connection.recv_messages()`
exactly once, modelled as one socket read delivering the next single
message; finally it asserts that `dismissed` and `result` were set.
Returns the outcome together with the signal subscriptions performed. -/
def exec_prompt (prompt_path : String) (inbox : List InMsg) :
    ExecOutcome × List SubKey :=
  let key := execPromptKey prompt_path
  let subs := [key]
  match pumpUntilReply key ⟨none, none⟩ inbox with
  | .blocked => (.blocked, subs)
  | .failed e _ => (.err e, subs)
  | .ok st1 rest =>
    let step : Option PromptState :=
      if st1.result.isNone then
        match rest with
        | [] => none
        | m :: _ => some (dispatchOne key st1 m)
      else some st1
    match step with
    | none => (.blocked, subs)
    | some st2 =>
      match st2.dismissed, st2.result with
      | some d, some r => (.ok d r, subs)
      | _, _ => (.err .assertionError, subs)

/-- Outcome of `unlock_objects`: the dismissed flag, an exception, or
blocking forever. -/
inductive UnlockOutcome where
  | ok (dismissed : Bool)
  | err (e : PyErr)
  | blocked

/-- `secretstorage.util.unlock_objects` (util.py lines 143-154) given the
service's Unlock reply `(unlocked_paths, prompt)` and the pending inbound
messages.  When `len(prompt) > 1` it delegates to `exec_prompt`,
destructures its result as `(signature, unlocked)` (a non-2-sequence
raises `ValueError`, a non-iterable raises `TypeError`), asserts the
signature is `'ao'`, and returns only the dismissed flag; otherwise it
returns `False` immediately.  The second component records the signal
subscriptions performed. -/
def unlock_objects (unlockReply : List String × String)
    (inbox : List InMsg) : UnlockOutcome × List SubKey :=
  let prompt := unlockReply.2
  if prompt.length > 1 then
    match exec_prompt prompt inbox with
    | (.ok d r, subs) =>
      match r with
      | .tup [.str sig, _] =>
        if sig = "ao" then (.ok d, subs) else (.err .assertionError, subs)
      | .tup [_, _] => (.err .assertionError, subs)
      | .tup _ => (.err .valueError, subs)
      | .paths [a, _] =>
        if a = "ao" then (.ok d, subs) else (.err .assertionError, subs)
      | .paths _ => (.err .valueError, subs)
      | .str s =>
        if s.length = 2 then (.err .assertionError, subs)
        else (.err .valueError, subs)
      | .bytes bs =>
        if bs.length = 2 then (.err .assertionError, subs)
        else (.err .valueError, subs)
      | .bool _ => (.err .typeError, subs)
    | (.err e, subs) => (.err e, subs)
    | (.blocked, subs) => (.blocked, subs)
  else (.ok false, [])

/-- A concrete inbound sequence for the prompt at
`/org/freedesktop/secrets/prompt/p1`: first the reply to the Prompt call,
then a Completed signal from a different, unrelated prompt path (which
the connection-wide match rule does deliver), and only then the
subscribed prompt's own Completed signal. -/
def c1Inbox : List InMsg :=
  [.reply (.tup []),
   .signal "/org/freedesktop/secrets/prompt/p2" PROMPT_IFACE "Completed"
     (.bool true, .tup [.str "ao", .paths []]),
   .signal "/org/freedesktop/secrets/prompt/p1" PROMPT_IFACE "Completed"
     (.bool false, .tup [.str "ao", .paths ["/collection/c"]])]

/-- Claim C1 (divergence witness): with the subscribed prompt's Completed
signal still pending in the inbox — the third message resolves the
subscription, as the second conjunct shows — `exec_prompt` does not keep
blocking on inbound-message processing until that signal is observed: its
single `recv_messages` call consumes only the unrelated signal, after
which `assert dismissed is not None` fails, raising `AssertionError`
instead of waiting for the subscribed signal. -/
theorem exec_prompt_single_recv_assertion_failure :
    exec_prompt "/org/freedesktop/secrets/prompt/p1" c1Inbox =
      (.err .assertionError,
       [execPromptKey "/org/freedesktop/secrets/prompt/p1"]) ∧
    dispatchOne (execPromptKey "/org/freedesktop/secrets/prompt/p1")
        ⟨none, none⟩
        (.signal "/org/freedesktop/secrets/prompt/p1" PROMPT_IFACE
          "Completed"
          (.bool false, .tup [.str "ao", .paths ["/collection/c"]])) =
      ⟨some false, some (.tup [.str "ao", .paths ["/collection/c"]])⟩ :=
  ⟨rfl, rfl⟩

/-- Claim C5: given the service's Unlock reply, a prompt handle that is
the empty path or the root-path sentinel makes `unlock_objects` return
`dismissed = false` immediately with no signal subscription performed;
any longer prompt path delegates to `exec_prompt` on that handle and, on
its `(dismissed, (ao-signature, unlocked))` outcome, returns exactly its
dismissed flag, discarding the unlocked result paths. -/
theorem unlock_objects_spec (paths : List String) (prompt : String)
    (inbox : List InMsg) :
    ((prompt = "" ∨ prompt = "/") →
      unlock_objects (paths, prompt) inbox = (.ok false, [])) ∧
    (1 < prompt.length →
      ∀ d r subs,
        exec_prompt prompt inbox = (.ok d (.tup [.str "ao", r]), subs) →
        unlock_objects (paths, prompt) inbox = (.ok d, subs)) := by
  constructor
  · intro h
    rcases h with h | h <;> subst h <;> rfl
  · intro hlen d r subs hexec
    unfold unlock_objects
    rw [if_pos hlen, hexec]
    simp

/-- Witness for C5: the root-path sentinel returns `(false, [])` with no
subscription, and a real prompt path delegates to `exec_prompt` and
returns its dismissed flag. -/
theorem unlock_objects_spec_witness :
    unlock_objects (["/collection/c"], "/")
        [.reply (.tup [])] = (.ok false, []) ∧
    unlock_objects (["/collection/c"], "/org/freedesktop/secrets/prompt/p1")
        [.reply (.tup []),
         .signal "/org/freedesktop/secrets/prompt/p1" PROMPT_IFACE
           "Completed" (.bool false, .tup [.str "ao", .paths ["/c"]])] =
      (.ok false, [execPromptKey "/org/freedesktop/secrets/prompt/p1"]) := by
  constructor
  · exact (unlock_objects_spec ["/collection/c"] "/"
      [.reply (.tup [])]).1 (Or.inr rfl)
  · exact (unlock_objects_spec ["/collection/c"]
      "/org/freedesktop/secrets/prompt/p1"
      [.reply (.tup []),
       .signal "/org/freedesktop/secrets/prompt/p1" PROMPT_IFACE
         "Completed" (.bool false, .tup [.str "ao", .paths ["/c"]])]).2
      (by decide) false (.paths ["/c"])
      [execPromptKey "/org/freedesktop/secrets/prompt/p1"] rfl

/-- Claim C8: each `exec_prompt` registers its callback under the key
`(its own prompt path, PROMPT_IFACE, 'Completed')`, and router dispatch
is an exact three-field match — so a Completed signal from a different
prompt path never sets a coordinator's `(dismissed, result)` state, while
the coordinator subscribed on the signal's own path is resolved by it. -/
theorem prompt_correlation (pA pB : String) (h : pA ≠ pB)
    (stB : PromptState) (d r : PyData) :
    dispatchOne (execPromptKey pB) stB
        (.signal pA PROMPT_IFACE "Completed" (d, r)) = stB ∧
    dispatchOne (execPromptKey pA) ⟨none, none⟩
        (.signal pA PROMPT_IFACE "Completed" (d, r)) =
      ⟨some (pyTruthy d), some r⟩ := by
  constructor
  · simp [dispatchOne, execPromptKey, h]
  · simp [dispatchOne, execPromptKey]

/-- Witness for C8: two concrete distinct prompt paths; the signal for
the first leaves the second coordinator untouched and resolves the
first. -/
theorem prompt_correlation_witness :
    dispatchOne (execPromptKey "/org/freedesktop/secrets/prompt/p2")
        ⟨none, none⟩
        (.signal "/org/freedesktop/secrets/prompt/p1" PROMPT_IFACE
          "Completed" (.bool true, .paths [])) = ⟨none, none⟩ ∧
    dispatchOne (execPromptKey "/org/freedesktop/secrets/prompt/p1")
        ⟨none, none⟩
        (.signal "/org/freedesktop/secrets/prompt/p1" PROMPT_IFACE
          "Completed" (.bool true, .paths [])) =
      ⟨some true, some (.paths [])⟩ := by
  have h := prompt_correlation "/org/freedesktop/secrets/prompt/p1"
    "/org/freedesktop/secrets/prompt/p2" (by decide) ⟨none, none⟩
    (.bool true) (.paths [])
  exact ⟨h.1, h.2⟩

/-- A bus match rule as built by `add_match_rules` (util.py line 166):
`MatchRule(sender=BUS_NAME, interface=PROMPT_IFACE)`. -/
structure MatchRule where
  sender : String
  iface : String
deriving DecidableEq

/-- The connection state the match-rule claims need: the list of match
rules installed on the bus for this connection, in installation order. -/
structure DBusConnection where
  matchRules : List MatchRule

/-- `secretstorage.util.add_match_rules` (util.py lines 157-171): build
one rule matching all signals from the well-known secret-service sender
on the Prompt interface, and issue one `AddMatch` call for it to the bus
daemon. -/
def add_match_rules (c : DBusConnection) : DBusConnection :=
  { c with matchRules := c.matchRules ++ [⟨BUS_NAME, PROMPT_IFACE⟩] }

/-- The exceptions `connect_and_authenticate` can raise, as caught by
`dbus_init` (a missing environment variable, a connection failure, or a
malformed address). -/
inductive ConnectError where
  | keyError (name : String)
  | connectionError (msg : String)
  | valueError (msg : String)

/-- `secretstorage.dbus_init` (secretstorage/__init__.py lines 42-51):
connect and authenticate — the external transport step is the parameter
`connect` — then install the match rules before returning the connection;
connection failures are translated to
`SecretServiceNotAvailableException`. -/
def dbus_init (connect : Except ConnectError DBusConnection) :
    Except PyErr DBusConnection :=
  match connect with
  | .ok connection => .ok (add_match_rules connection)
  | .error (.keyError k) =>
    .error (.serviceUnavailable
      (.str ("Environment variable " ++ k ++ " is unset")))
  | .error (.connectionError s) => .error (.serviceUnavailable (.str s))
  | .error (.valueError s) => .error (.serviceUnavailable (.str s))

/-- Claim C9: on a fresh connection (no rules yet), `dbus_init` returns a
connection carrying exactly one installed match rule, scoped to the
well-known secret-service sender name and the Prompt interface — in
place before `dbus_init` returns, hence before any prompt flow can run
on that connection. -/
theorem dbus_init_match_rule (connect : Except ConnectError DBusConnection)
    (c : DBusConnection) (hc : connect = .ok c)
    (hfresh : c.matchRules = []) :
    dbus_init connect = .ok (add_match_rules c) ∧
    (add_match_rules c).matchRules = [⟨BUS_NAME, PROMPT_IFACE⟩] ∧
    (add_match_rules c).matchRules.length = 1 ∧
    ∀ rule ∈ (add_match_rules c).matchRules,
      rule.sender = BUS_NAME ∧ rule.iface = PROMPT_IFACE := by
  subst hc
  refine ⟨rfl, ?_, ?_, ?_⟩
  · simp [add_match_rules, hfresh]
  · simp [add_match_rules, hfresh]
  · intro rule hrule
    simp [add_match_rules, hfresh] at hrule
    subst hrule
    exact ⟨rfl, rfl⟩

/-- Witness for C9: a fresh connection with no match rules. -/
theorem dbus_init_match_rule_witness :
    dbus_init (.ok ⟨[]⟩) = .ok (add_match_rules ⟨[]⟩) ∧
    (add_match_rules ⟨[]⟩).matchRules = [⟨BUS_NAME, PROMPT_IFACE⟩] := by
  have h := dbus_init_match_rule (.ok ⟨[]⟩) ⟨[]⟩ rfl rfl
  exact ⟨h.1, h.2.1⟩
